import Mathlib

/- Shallow embedding of the Bun HTTP basic-auth demonstration server.
   The subject is the `fetch(request)` handler passed to `Bun.serve` in
   the server source: it routes `/api/data` through a basic-auth check
   against a configured user name and password and answers 404 on every
   other path. JavaScript strings are modelled as lists of characters;
   the decoded credential payload is modelled as the list of bytes that
   `Buffer.from(b64, "base64")` produces, and text comparisons against
   the configured credential are carried out against its UTF-8 bytes,
   which is faithful because UTF-8 decoding is injective and never
   produces the configured text from any other byte sequence. -/

abbrev JSStr := List Char

/-- Value of one character under Node's forgiving base64 decoder: the
standard alphabet plus the URL-safe variant characters that
`Buffer.from(s, "base64")` also accepts. A character outside the
alphabet (padding included) contributes nothing to the decode. -/
def b64Val (c : Char) : Option Nat :=
  if 'A' ≤ c ∧ c ≤ 'Z' then some (c.toNat - 65)
  else if 'a' ≤ c ∧ c ≤ 'z' then some (c.toNat - 97 + 26)
  else if '0' ≤ c ∧ c ≤ '9' then some (c.toNat - 48 + 52)
  else if c = '+' ∨ c = '-' then some 62
  else if c = '/' ∨ c = '_' then some 63
  else none

/-- Reassemble bytes from six-bit groups, four groups to three bytes,
with shorter tail groups yielding the bytes they fully determine, as a
forgiving decoder does when padding is missing. -/
def sextetsToBytes : List Nat → List Nat
  | a :: b :: c :: d :: rest =>
      (a * 4 + b / 16) :: ((b % 16) * 16 + c / 4) :: ((c % 4) * 64 + d) :: sextetsToBytes rest
  | [a, b] => [a * 4 + b / 16]
  | [a, b, c] => [a * 4 + b / 16, (b % 16) * 16 + c / 4]
  | _ => []

/-- Node/Bun `Buffer.from(s, "base64")`: a total, forgiving decode
that skips characters outside the base64 alphabet and tolerates
missing padding; it never throws. -/
def base64DecodeLenient (s : JSStr) : List Nat :=
  sextetsToBytes (s.filterMap b64Val)

def b64CharOf (n : Nat) : Char :=
  if n < 26 then Char.ofNat (65 + n)
  else if n < 52 then Char.ofNat (97 + (n - 26))
  else if n < 62 then Char.ofNat (48 + (n - 52))
  else if n = 62 then '+'
  else '/'

/-- Standard base64 encoding with padding, as `btoa` produces on the
demonstration page when it builds the Authorization header. -/
def base64EncodeChars : List Nat → JSStr
  | b0 :: b1 :: b2 :: rest =>
      b64CharOf (b0 / 4) :: b64CharOf ((b0 % 4) * 16 + b1 / 16) ::
        b64CharOf ((b1 % 16) * 4 + b2 / 64) :: b64CharOf (b2 % 64) :: base64EncodeChars rest
  | [b0, b1] => [b64CharOf (b0 / 4), b64CharOf ((b0 % 4) * 16 + b1 / 16), b64CharOf ((b1 % 16) * 4), '=']
  | [b0] => [b64CharOf (b0 / 4), b64CharOf ((b0 % 4) * 16), '=', '=']
  | [] => []

/-- UTF-8 encoding of one character, as `Buffer` uses. -/
def utf8Char (c : Char) : List Nat :=
  let n := c.toNat
  if n < 128 then [n]
  else if n < 2048 then [192 + n / 64, 128 + n % 64]
  else if n < 65536 then [224 + n / 4096, 128 + n / 64 % 64, 128 + n % 64]
  else [240 + n / 262144, 128 + n / 4096 % 64, 128 + n / 64 % 64, 128 + n % 64]

/-- UTF-8 encoding of a string. -/
def utf8Str : JSStr → List Nat
  | [] => []
  | c :: cs => utf8Char c ++ utf8Str cs

/-- JavaScript `String.prototype.split(":")` applied to the decoded
payload: it splits at every colon (byte 58), not only at the first
one, and on input without a colon yields the single original field. -/
def splitOnColon : List Nat → List (List Nat)
  | [] => [[]]
  | b :: rest =>
    if b = 58 then [] :: splitOnColon rest
    else
      match splitOnColon rest with
      | f :: fs => (b :: f) :: fs
      | [] => [[b]]

/-- JavaScript `String.prototype.startsWith`: character-by-character
comparison of the marker text against the front of the string. -/
def startsWithB (p s : JSStr) : Bool :=
  match p with
  | [] => true
  | c :: p' =>
    match s with
    | [] => false
    | d :: s' => c == d && startsWithB p' s'

/-- Line 26 and 27 of the server source: drop the six characters of
the scheme marker, decode the remainder forgivingly and split on every
colon. The destructuring `const [userName, password] = ...` then takes
the first field and, when present, the second. -/
def candidateFieldsOf (a : JSStr) : List (List Nat) :=
  splitOnColon (base64DecodeLenient (a.drop 6))

def hexDigit (n : Nat) : Char :=
  if n < 10 then Char.ofNat (48 + n) else Char.ofNat (87 + n)

/-- JSON.stringify escaping for one character of a string value. -/
def jsonEscapeChar (c : Char) : List Char :=
  if c = '"' then ['\\', '"']
  else if c = '\\' then ['\\', '\\']
  else if c.toNat = 8 then ['\\', 'b']
  else if c.toNat = 9 then ['\\', 't']
  else if c.toNat = 10 then ['\\', 'n']
  else if c.toNat = 12 then ['\\', 'f']
  else if c.toNat = 13 then ['\\', 'r']
  else if c.toNat < 32 then ['\\', 'u', '0', '0', hexDigit (c.toNat / 16), hexDigit (c.toNat % 16)]
  else [c]

def jsonEscapeStr : JSStr → JSStr
  | [] => []
  | c :: cs => jsonEscapeChar c ++ jsonEscapeStr cs

/-- Body produced by `Response.json` on the success branch: the JSON
object with the single `userName` member. -/
def jsonUserNameBody (u : JSStr) : JSStr :=
  "\x7b\"userName\":\"".data ++ jsonEscapeStr u ++ "\"\x7d".data

/-- An HTTP response as far as the handler determines it: the status,
the optional `WWW-Authenticate` challenge value and the optional body. -/
structure Response where
  status : Nat
  wwwAuthenticate : Option JSStr
  body : Option JSStr
deriving DecidableEq

/-- The challenge the handler builds on every unauthorized branch:
status 401, no body, header `WWW-Authenticate: Basic` with no realm. -/
def challengeResponse : Response :=
  ⟨401, some "Basic".data, none⟩

/-- The fallthrough of the handler: status 404, no body, no headers. -/
def notFoundResponse : Response :=
  ⟨404, none, none⟩

/-- The success branch `Response.json(...)`: status 200, JSON body,
no challenge header. -/
def okResponse (u : JSStr) : Response :=
  ⟨200, none, some (jsonUserNameBody u)⟩

def apiPath : JSStr := "/api/data".data

/-- Modelled from the spec: the server imports `USER_NAME` from
`secrets.ts`, a file that is not among the sources; the spec's
end-to-end scenarios fix the configured identity as `tom`. -/
def USER_NAME : JSStr := "tom".data

/-- Modelled from the spec: the server imports `PASSWORD` from
`secrets.ts`, a file that is not among the sources; the spec's
end-to-end scenarios fix the configured secret as `1234`. -/
def PASSWORD : JSStr := "1234".data

/-- The `fetch(request)` handler of `Bun.serve`, parametrised by the
configured credential pair. The source guard `!authorization ||
!authorization.startsWith('Basic ')` is modelled by the `none` case
together with the marker test: an empty-string header is falsy in the
source and equally fails the marker test here, so the two agree on
every input. The split always yields at least one field, so the
`headD` default is never reached; the second field is `none` exactly
when the source leaves `password` undefined, and `undefined` compares
unequal to every configured string, as `none` does here. The success
branch returns the candidate user name, which the comparison has just
proved equal to the configured one. -/
def fetchHandler (u0 p0 : JSStr) (pathname : JSStr) (authorization : Option JSStr) : Response :=
  if pathname = apiPath then
    match authorization with
    | none => challengeResponse
    | some auth =>
      if startsWithB "Basic ".data auth then
        if (candidateFieldsOf auth).headD [] = utf8Str u0 ∧
            (candidateFieldsOf auth)[1]? = some (utf8Str p0) then
          okResponse u0
        else challengeResponse
      else challengeResponse
  else notFoundResponse

/-- The handler as served, with the configured credential. -/
def serveFetch : JSStr → Option JSStr → Response :=
  fetchHandler USER_NAME PASSWORD

/-- The scheme test of the source guard: header present and starting
with the literal marker text. -/
def hasBasicScheme : Option JSStr → Bool
  | none => false
  | some a => startsWithB "Basic ".data a

/-- The candidate identity or the candidate secret is empty; the
secret also counts as empty when the payload holds no colon, the case
the source leaves `undefined` and the spec reads as an empty secret. -/
def emptyCandidateField : Option JSStr → Bool
  | none => false
  | some a =>
      (candidateFieldsOf a).headD [] == [] ||
      (candidateFieldsOf a)[1]? == some [] ||
      ((candidateFieldsOf a)[1]?).isNone

/-- A server working through a batch of requests in order. The source
handler closes over nothing but the fixed credential, so processing is
a plain map with no state threaded between requests. -/
def processRequests (u0 p0 : JSStr) (reqs : List (JSStr × Option JSStr)) : List Response :=
  reqs.map fun r => fetchHandler u0 p0 r.1 r.2

/-- A request with the attributes a caller controls; the handler reads
only the pathname of the URL and the Authorization header. -/
structure JSRequest where
  method : JSStr
  pathname : JSStr
  search : JSStr
  headers : List (JSStr × JSStr)

def asciiLower (c : Char) : Char :=
  if 'A' ≤ c ∧ c ≤ 'Z' then Char.ofNat (c.toNat + 32) else c

/-- `Headers.get`: HTTP header names compare case-insensitively. -/
def headersGet (hs : List (JSStr × JSStr)) (name : JSStr) : Option JSStr :=
  (hs.find? fun h => h.1.map asciiLower == name.map asciiLower).map fun h => h.2

/-- The handler applied to a whole request: it consults only the
pathname and the Authorization header. -/
def handleRequest (u0 p0 : JSStr) (req : JSRequest) : Response :=
  fetchHandler u0 p0 req.pathname (headersGet req.headers "Authorization".data)

/-- A GET of the protected path carrying the valid credential in a
lower-cased header name, with a demonstration extra header. -/
def demoRequest1 : JSRequest :=
  ⟨"GET".data, apiPath, "".data,
    [("x-demo".data, "1".data), ("authorization".data, "Basic dG9tOjEyMzQ=".data)]⟩

/-- A POST of the protected path with a query string, agreeing with
`demoRequest1` on the pathname and the Authorization value only. -/
def demoRequest2 : JSRequest :=
  ⟨"POST".data, apiPath, "?q=1".data,
    [("Authorization".data, "Basic dG9tOjEyMzQ=".data), ("accept".data, "text".data)]⟩

/-- Follows the spec's words (section 4.1 step 3): split the decoded
text on the first colon into identity and secret; with no colon the
secret is empty. -/
def splitFirstColon : List Nat → List Nat × List Nat
  | [] => ([], [])
  | b :: rest =>
      if b = 58 then ([], rest)
      else (b :: (splitFirstColon rest).1, (splitFirstColon rest).2)

/-- Follows the spec's words (section 3 invariant): authorized exactly
when the header is present, carries the expected scheme marker, its
remainder decodes to exactly two colon-delimited fields, and the two
fields equal the configured identity and secret, both non-empty. -/
def specAuthorizedCond (u0 p0 : JSStr) : Option JSStr → Bool
  | none => false
  | some a =>
      startsWithB "Basic ".data a &&
      splitOnColon (base64DecodeLenient (a.drop 6)) == [utf8Str u0, utf8Str p0] &&
      !(utf8Str u0 == []) && !(utf8Str p0 == [])

def b64StrictChar (c : Char) : Bool :=
  ('A' ≤ c && c ≤ 'Z') || ('a' ≤ c && c ≤ 'z') || ('0' ≤ c && c ≤ '9') || c == '+' || c == '/'

/-- Follows the spec's words: well-formed standard base64 is a
sequence of four-character groups over the strict alphabet, with at
most two padding characters and only at the very end. -/
def wellFormedBase64 (s : JSStr) : Bool :=
  s.length % 4 == 0 &&
  decide ((s.reverse.takeWhile fun c => c == '=').length ≤ 2) &&
  (s.take (s.length - (s.reverse.takeWhile fun c => c == '=').length)).all b64StrictChar

/- Helper lemmas shared between the claim theorems. -/

theorem fetchHandler_api_some (u0 p0 a : JSStr) :
    fetchHandler u0 p0 apiPath (some a) =
      if startsWithB "Basic ".data a then
        if (candidateFieldsOf a).headD [] = utf8Str u0 ∧
            (candidateFieldsOf a)[1]? = some (utf8Str p0) then
          okResponse u0
        else challengeResponse
      else challengeResponse := rfl

theorem serveFetch_api_some (a : JSStr) :
    serveFetch apiPath (some a) =
      if startsWithB "Basic ".data a then
        if (candidateFieldsOf a).headD [] = utf8Str USER_NAME ∧
            (candidateFieldsOf a)[1]? = some (utf8Str PASSWORD) then
          okResponse USER_NAME
        else challengeResponse
      else challengeResponse := rfl

theorem basicMarker_startsWith_append (s : JSStr) :
    (startsWithB "Basic ".data ("Basic ".data ++ s)) = true := rfl

/-- C1 (amended): a request to the protected path is answered 200
exactly when the Authorization header is present, starts with the
scheme marker, and the first two colon-delimited fields of the decoded
payload are the configured identity and the configured secret; any
fields after the second are ignored by the destructuring, and
non-emptiness of the matching fields follows because the configured
credential is non-empty. -/
theorem authorized_iff_first_two_fields (authorization : Option JSStr) :
    (serveFetch apiPath authorization).status = 200 ↔
      ∃ a, authorization = some a ∧ (startsWithB "Basic ".data a) = true ∧
        (candidateFieldsOf a).headD [] = utf8Str USER_NAME ∧
        (candidateFieldsOf a)[1]? = some (utf8Str PASSWORD) := by
  cases authorization with
  | none =>
      constructor
      · intro h
        exact absurd h (by decide)
      · rintro ⟨a, ha, h⟩
        exact Option.noConfusion ha
  | some a =>
      rw [serveFetch_api_some]
      by_cases hp : (startsWithB "Basic ".data a) = true
      · rw [if_pos hp]
        by_cases hc : (candidateFieldsOf a).headD [] = utf8Str USER_NAME ∧
            (candidateFieldsOf a)[1]? = some (utf8Str PASSWORD)
        · rw [if_pos hc]
          constructor
          · intro h
            exact ⟨a, rfl, hp, hc.1, hc.2⟩
          · intro h
            rfl
        · rw [if_neg hc]
          constructor
          · intro h
            exact absurd h (by decide)
          · rintro ⟨a2, ha2, hp2, h1, h2⟩
            injection ha2 with he
            subst he
            exact absurd ⟨h1, h2⟩ hc
      · rw [if_neg hp]
        constructor
        · intro h
          exact absurd h (by decide)
        · rintro ⟨a2, ha2, hp2, h1, h2⟩
          injection ha2 with he
          subst he
          exact absurd hp2 hp

/-- C1 counterexample: the header `Basic dG9tOjEyMzQ6eA==` decodes to
`tom:1234:x`, three colon-delimited fields rather than exactly two, so
the spec's authorization condition is false for it, yet the server
answers 200. -/
theorem authorized_with_three_fields :
    (serveFetch apiPath (some "Basic dG9tOjEyMzQ6eA==".data)).status = 200 ∧
    specAuthorizedCond USER_NAME PASSWORD (some "Basic dG9tOjEyMzQ6eA==".data) = false := by
  decide

/-- C2 (amended): for a header made of the scheme marker followed by
any remainder, the decoded payload is split at every colon and the
response is determined by the first two fields alone, any later fields
being discarded; when the payload holds no colon the second field is
absent, so the comparison with the configured secret fails. -/
theorem split_all_colons_semantics (s : JSStr) :
    serveFetch apiPath (some ("Basic ".data ++ s)) =
      if (splitOnColon (base64DecodeLenient s)).headD [] = utf8Str USER_NAME ∧
          (splitOnColon (base64DecodeLenient s))[1]? = some (utf8Str PASSWORD) then
        okResponse USER_NAME
      else challengeResponse := rfl

/-- C2 counterexample: the payload of `Basic dG9tOjEyMzQ6ZXh0cmE=`
decodes to `tom:1234:extra`; splitting on the first colon would make
the candidate secret `1234:extra`, different from the configured
secret, so the claim predicts a mismatch, yet the server answers 200:
the code keeps nothing of the secret after a second colon. -/
theorem split_keeps_only_second_field :
    (splitFirstColon (base64DecodeLenient "dG9tOjEyMzQ6ZXh0cmE=".data)).2 = utf8Str "1234:extra".data ∧
    (splitFirstColon (base64DecodeLenient "dG9tOjEyMzQ6ZXh0cmE=".data)).2 ≠ utf8Str PASSWORD ∧
    (serveFetch apiPath (some "Basic dG9tOjEyMzQ6ZXh0cmE=".data)).status = 200 := by
  decide

/-- C3: a request to the protected path whose header is the scheme
marker followed by the base64 encoding of `identity:secret` built from
the configured identity and secret is answered 200 with the JSON body
carrying the identity and with no challenge header. -/
theorem correct_credentials_authorize (ident secret : JSStr)
    (hid : ident = USER_NAME) (hsec : secret = PASSWORD) :
    serveFetch apiPath
        (some ("Basic ".data ++ base64EncodeChars (utf8Str (ident ++ ':' :: secret)))) =
      ⟨200, none, some (jsonUserNameBody ident)⟩ := by
  subst hid
  subst hsec
  decide

/-- C3 witness at the configured credential pair. -/
theorem correct_credentials_authorize_witness :
    ("tom".data = USER_NAME ∧ "1234".data = PASSWORD) ∧
    serveFetch apiPath
        (some ("Basic ".data ++ base64EncodeChars (utf8Str ("tom".data ++ ':' :: "1234".data)))) =
      ⟨200, none, some (jsonUserNameBody "tom".data)⟩ :=
  ⟨⟨rfl, rfl⟩, correct_credentials_authorize "tom".data "1234".data rfl rfl⟩

/-- C4: whenever the decoded candidate identity is empty, or the
candidate secret is empty or missing, the protected path answers with
the 401 challenge, whatever the other field holds. -/
theorem empty_candidate_unauthorized (authorization : Option JSStr)
    (h : emptyCandidateField authorization = true) :
    serveFetch apiPath authorization = challengeResponse := by
  cases authorization with
  | none => rfl
  | some a =>
      rw [serveFetch_api_some]
      by_cases hp : (startsWithB "Basic ".data a) = true
      · rw [if_pos hp]
        by_cases hc : (candidateFieldsOf a).headD [] = utf8Str USER_NAME ∧
            (candidateFieldsOf a)[1]? = some (utf8Str PASSWORD)
        · exfalso
          simp only [emptyCandidateField] at h
          rw [hc.1, hc.2] at h
          revert h
          decide
        · rw [if_neg hc]
      · rw [if_neg hp]

/-- C4 witness: `Basic Og==` carries the payload `:`, whose candidate
identity and candidate secret are both empty, and the server answers
with the challenge. -/
theorem empty_candidate_unauthorized_witness :
    emptyCandidateField (some "Basic Og==".data) = true ∧
    serveFetch apiPath (some "Basic Og==".data) = challengeResponse :=
  ⟨by decide, empty_candidate_unauthorized (some "Basic Og==".data) (by decide)⟩

/-- C5: with the Authorization header absent, or present but not
starting with the literal scheme marker, the protected path answers
status 401 with an empty body and the bare `WWW-Authenticate: Basic`
header carrying no realm, for any configured credential. -/
theorem missing_or_wrong_scheme_unauthorized (u0 p0 : JSStr) (authorization : Option JSStr)
    (h : hasBasicScheme authorization = false) :
    fetchHandler u0 p0 apiPath authorization = challengeResponse := by
  cases authorization with
  | none => rfl
  | some a =>
      simp only [hasBasicScheme] at h
      rw [fetchHandler_api_some, h]
      rfl

/-- C5 witness: a Bearer-scheme header is challenged. -/
theorem missing_or_wrong_scheme_unauthorized_witness :
    hasBasicScheme (some "Bearer xyz".data) = false ∧
    fetchHandler "tom".data "1234".data apiPath (some "Bearer xyz".data) = challengeResponse :=
  ⟨by decide,
    missing_or_wrong_scheme_unauthorized "tom".data "1234".data (some "Bearer xyz".data) (by decide)⟩

/-- C6 (amended): base64 decoding never fails fatally: for every
remainder after the scheme marker, well-formed base64 or not, the
handler returns a definite response, the 401 challenge unless the
forgivingly decoded payload matches the configured credential, in
which case 200. -/
theorem basic_header_total_response (s : JSStr) :
    serveFetch apiPath (some ("Basic ".data ++ s)) = challengeResponse ∨
    serveFetch apiPath (some ("Basic ".data ++ s)) = okResponse USER_NAME := by
  rw [serveFetch_api_some, if_pos (basicMarker_startsWith_append s)]
  by_cases hc : (candidateFieldsOf ("Basic ".data ++ s)).headD [] = utf8Str USER_NAME ∧
      (candidateFieldsOf ("Basic ".data ++ s))[1]? = some (utf8Str PASSWORD)
  · right
    rw [if_pos hc]
  · left
    rw [if_neg hc]

/-- C6 counterexample: `dG9tOjEyMzQ` is not well-formed standard
base64, its length not being a multiple of four and carrying no
padding, yet the forgiving decoder recovers `tom:1234` from it and the
server answers 200 rather than 401. -/
theorem unpadded_base64_authorizes :
    wellFormedBase64 "dG9tOjEyMzQ".data = false ∧
    serveFetch apiPath (some "Basic dG9tOjEyMzQ".data) = okResponse USER_NAME := by
  decide

/-- C7: every request whose pathname differs from the protected path
gets the 404 response with an empty body and no challenge header, for
any Authorization header and any configured credential. -/
theorem other_path_not_found (u0 p0 pathname : JSStr) (authorization : Option JSStr)
    (h : pathname ≠ apiPath) :
    fetchHandler u0 p0 pathname authorization = notFoundResponse := by
  unfold fetchHandler
  rw [if_neg h]

/-- C7 witness: an unknown path with a valid credential is still 404. -/
theorem other_path_not_found_witness :
    "/other/path".data ≠ apiPath ∧
    fetchHandler "tom".data "1234".data "/other/path".data
        (some "Basic dG9tOjEyMzQ=".data) = notFoundResponse :=
  ⟨by decide,
    other_path_not_found "tom".data "1234".data "/other/path".data
      (some "Basic dG9tOjEyMzQ=".data) (by decide)⟩

/-- C8: request processing is stateless and idempotent: in any batch
the response to a request is the handler's value at that request
alone, unchanged by the requests processed before or after it, so
re-evaluating the same request, in any position, yields the same
response. -/
theorem stateless_request_processing (u0 p0 : JSStr)
    (pre post : List (JSStr × Option JSStr)) (p : JSStr) (a : Option JSStr) :
    processRequests u0 p0 (pre ++ (p, a) :: post) =
      processRequests u0 p0 pre ++ fetchHandler u0 p0 p a :: processRequests u0 p0 post := by
  simp [processRequests]

/-- C9: the response is a function of exactly the request's pathname
and Authorization header value: two requests agreeing on both receive
identical responses, whatever their method, query string or other
headers. -/
theorem response_depends_only_on_path_and_auth (u0 p0 : JSStr) (r1 r2 : JSRequest)
    (hpath : r1.pathname = r2.pathname)
    (hauth : headersGet r1.headers "Authorization".data =
      headersGet r2.headers "Authorization".data) :
    handleRequest u0 p0 r1 = handleRequest u0 p0 r2 := by
  unfold handleRequest
  rw [hpath, hauth]

/-- C9 witness: a GET and a POST with different query strings and
differently ordered, differently cased headers, agreeing only on the
pathname and the Authorization value, get identical responses. -/
theorem response_depends_only_on_path_and_auth_witness :
    (demoRequest1.pathname = demoRequest2.pathname ∧
      headersGet demoRequest1.headers "Authorization".data =
        headersGet demoRequest2.headers "Authorization".data) ∧
    handleRequest "tom".data "1234".data demoRequest1 =
      handleRequest "tom".data "1234".data demoRequest2 :=
  ⟨⟨by decide, by decide⟩,
    response_depends_only_on_path_and_auth "tom".data "1234".data demoRequest1 demoRequest2
      (by decide) (by decide)⟩

/-- C10: the handler is total: for every pathname and header value,
absent, empty or arbitrary, it returns exactly one response, whose
status is 200, 401 or 404. -/
theorem status_in_200_401_404 (u0 p0 pathname : JSStr) (authorization : Option JSStr) :
    (fetchHandler u0 p0 pathname authorization).status = 200 ∨
    (fetchHandler u0 p0 pathname authorization).status = 401 ∨
    (fetchHandler u0 p0 pathname authorization).status = 404 := by
  by_cases hP : pathname = apiPath
  · subst hP
    cases authorization with
    | none =>
        right; left; rfl
    | some a =>
        rw [fetchHandler_api_some]
        by_cases hp : (startsWithB "Basic ".data a) = true
        · rw [if_pos hp]
          by_cases hc : (candidateFieldsOf a).headD [] = utf8Str u0 ∧
              (candidateFieldsOf a)[1]? = some (utf8Str p0)
          · rw [if_pos hc]
            left; rfl
          · rw [if_neg hc]
            right; left; rfl
        · rw [if_neg hp]
          right; left; rfl
  · unfold fetchHandler
    rw [if_neg hP]
    right; right; rfl
